import Mathlib

/-!
Shallow embedding of the solar-system canvas animation
(src/solar-system/index.js) and proofs about its claims.

JavaScript numbers are modelled as exact rationals (ℚ); the transcendental
positions produced by Math.cos / Math.sin are modelled over the reals (ℝ).
The JavaScript remainder operator x % y truncates toward zero; it is
modelled by jsMod below.  Canvas 2D side effects are modelled as a list of
draw events together with an optional JavaScript error (a thrown exception
aborts the rest of the synchronous render pass, while effects already
issued persist).
-/

namespace Solar

/-- index.js line 4: the fixed target frame rate. -/
def FPS : ℚ := 60

/-- index.js lines 33-45: 2-D point in canvas space. -/
structure Point where
  x : ℚ
  y : ℚ
  deriving DecidableEq

/-- index.js lines 47-59: size in pixels. -/
structure Size where
  width : ℚ
  height : ℚ
  deriving DecidableEq

/-- index.js lines 102-111: duration in seconds. -/
structure Time where
  seconds : ℚ
  deriving DecidableEq

/-- A point with real coordinates (positions produced via cos / sin). -/
structure RPoint where
  x : ℝ
  y : ℝ

/-- Truncation toward zero, the rounding used by the JavaScript % operator. -/
def ratTrunc (q : ℚ) : ℤ :=
  if 0 ≤ q then ⌊q⌋ else ⌈q⌉

/-- The JavaScript remainder a % b (sign follows the dividend). -/
def jsMod (a b : ℚ) : ℚ :=
  a - b * (ratTrunc (a / b) : ℚ)

/-- index.js lines 61-100: degree-based angle. -/
structure Angle where
  degree : ℚ
  deriving DecidableEq

/-- index.js lines 76-78: Angle.toRadians. -/
noncomputable def Angle.toRadians (a : Angle) : ℝ :=
  (a.degree : ℝ) * Real.pi / 180

/-- index.js lines 86-88: Angle.addDelta returns new Angle((degree + delta) % 360). -/
def Angle.addDelta (a : Angle) (delta : ℚ) : Angle :=
  ⟨jsMod (a.degree + delta) 360⟩

/-- index.js lines 97-99: Angle.getRotationDelta = 360 / (seconds * FPS). -/
def Angle.getRotationDelta (fullRotationTime : Time) : ℚ :=
  360 / (fullRotationTime.seconds * FPS)

/-- The canvas dimensions read by Star.move / Star.reset. -/
structure Canvas where
  width : ℚ
  height : ℚ
  deriving DecidableEq

/-- index.js lines 113-127: a background star. -/
structure Star where
  center : Point
  radius : ℚ
  color : String
  deriving DecidableEq

/-- index.js lines 135-140: Star.reset places the star at
(random * width, random * height); the two random draws are passed in
explicitly as rx, ry ∈ [0,1). -/
def Star.reset (canvas : Canvas) (rx ry : ℚ) (s : Star) : Star :=
  { s with center := ⟨rx * canvas.width, ry * canvas.height⟩ }

/-- index.js lines 147-162: Star.move.  If the star is strictly outside the
canvas it is reset, otherwise it drifts away from the system center by
(center - systemCenter) / 2500. -/
def Star.move (canvas : Canvas) (sysCenter : Point) (rx ry : ℚ) (s : Star) : Star :=
  if s.center.x < 0 ∨ s.center.x > canvas.width ∨ s.center.y < 0 ∨ s.center.y > canvas.height then
    Star.reset canvas rx ry s
  else
    { s with center := ⟨s.center.x + (s.center.x - sysCenter.x) / 2500,
                        s.center.y + (s.center.y - sysCenter.y) / 2500⟩ }

/-- Identifier of a drawing call actually issued on the canvas context.
Body ids are embedding-side labels standing for JavaScript object identity. -/
inductive Ev where
  | starDot : Ev
  | sunSprite : Ev
  | orbitPath (id : ℕ) : Ev
  | sprite (id : ℕ) : Ev
  | ringFill (id : ℕ) : Ev
  deriving DecidableEq

/-- A thrown JavaScript exception: either an explicit new Error(msg) or a
runtime TypeError from dereferencing null. -/
inductive JsError where
  | error (msg : String) : JsError
  | typeError (msg : String) : JsError
  deriving DecidableEq

/-- Result of a synchronous render pass fragment: the draw events issued so
far, and the first uncaught exception if one was thrown.  Effects issued
before the throw persist; nothing after it runs. -/
abbrev DrawResult := List Ev × Option JsError

/-- Sequencing of render steps: if the first step threw, the second never
runs; otherwise events concatenate and the second step's error is kept. -/
def dseq (a b : DrawResult) : DrawResult :=
  match a.2 with
  | some _ => a
  | none => (a.1 ++ b.1, b.2)

/-- forEach over a list of bodies, with exception propagation. -/
def drawAll {α : Type} (f : α → DrawResult) (xs : List α) : DrawResult :=
  xs.foldl (fun acc x => dseq acc (f x)) ([], none)

/-- index.js lines 169-174: Star.draw issues one filled arc and cannot throw. -/
def Star.draw (_s : Star) : DrawResult :=
  ([Ev.starDot], none)

/-- index.js lines 315-352: the Sun (fixed center, self rotation only). -/
structure Sun where
  center : Point
  size : Size
  angle : Angle
  _delta : ℚ
  deriving DecidableEq

/-- index.js lines 322-326 with lines 277-286: the Sun constructor. -/
def Sun.create (center : Point) (size : Size) (fullRotationTime : Time) : Sun :=
  ⟨center, size, ⟨0⟩, Angle.getRotationDelta fullRotationTime⟩

/-- index.js lines 293-297: RotatableObject.rotate for the Sun. -/
def Sun.rotate (s : Sun) : Sun :=
  { s with angle := s.angle.addDelta s._delta }

/-- index.js lines 349-351: Sun.draw blits the sun sprite; it cannot throw. -/
def Sun.draw (_s : Sun) : DrawResult :=
  ([Ev.sunSprite], none)

/-- What the _center field of a planet-level Orbit holds: either a raw Point
or the Sun object (whose .center the getter extracts via the instanceof
check of index.js lines 383-389). -/
inductive PlanetBary where
  | pt (p : Point) : PlanetBary
  | sunObj (s : Sun) : PlanetBary
  deriving DecidableEq

/-- index.js lines 383-389: Orbit.get center — if the stored reference is an
object owning a Point center, return that center, else the stored Point. -/
def PlanetBary.centerOf : PlanetBary → Point
  | .pt p => p
  | .sunObj s => s.center

/-- index.js lines 354-455: Orbit.  The _center field is dynamically typed
in the source; C is the type of what this particular orbit stores there
(PlanetBary for planet orbits, Unit — the parent planet object — for
satellite orbits). -/
structure Orbit (C : Type) where
  _center : C
  radius : ℚ
  angle : Angle
  _delta : ℚ
  deriving DecidableEq

/-- index.js lines 361-376: the Orbit constructor (angle starts at 0, delta
derived from the orbital period). -/
def Orbit.create {C : Type} (barycenter : C) (radius : ℚ) (orbitalRotationTime : Time) : Orbit C :=
  ⟨barycenter, radius, ⟨0⟩, Angle.getRotationDelta orbitalRotationTime⟩

/-- index.js lines 419-423: Orbit.move. -/
def Orbit.move {C : Type} (o : Orbit C) : Orbit C :=
  { o with angle := o.angle.addDelta o._delta }

/-- The resolved barycenter of a planet-level orbit (real coordinates). -/
noncomputable def Orbit.center (o : Orbit PlanetBary) : RPoint :=
  ⟨((o._center.centerOf).x : ℝ), ((o._center.centerOf).y : ℝ)⟩

/-- index.js lines 405-412: Orbit._getOrbitalPoint =
center + radius * (cos angle, sin angle), resolving the center reference at
call time. -/
noncomputable def Orbit._getOrbitalPoint (o : Orbit PlanetBary) : RPoint :=
  ⟨o.center.x + (o.radius : ℝ) * Real.cos o.angle.toRadians,
   o.center.y + (o.radius : ℝ) * Real.sin o.angle.toRadians⟩

/-- What Ring._center may hold once set: the parent Planet object (the only
value the program ever passes, via addRing) or a raw Point. -/
inductive RingBary where
  | parentPlanet : RingBary
  | pt (p : Point) : RingBary
  deriving DecidableEq

/-- index.js lines 594-663: Ring.  _center is null until setCenter. -/
structure Ring where
  id : ℕ
  innerRadius : ℚ
  outerRadius : ℚ
  color : String
  angle : Angle
  _delta : ℚ
  _center : Option RingBary
  deriving DecidableEq

/-- index.js lines 602-609: the Ring constructor (center starts as null). -/
def Ring.create (id : ℕ) (innerRadius outerRadius : ℚ) (color : String) (fullRotationTime : Time) : Ring :=
  ⟨id, innerRadius, outerRadius, color, ⟨0⟩, Angle.getRotationDelta fullRotationTime, none⟩

/-- index.js lines 616-618: Ring.setCenter. -/
def Ring.setCenter (r : Ring) (center : RingBary) : Ring :=
  { r with _center := some center }

/-- index.js lines 625-631: Ring.get center — null before setCenter, else the
parent planet's current center (resolved at read time) or the stored Point. -/
def Ring.center (parentCenter : RPoint) (r : Ring) : Option RPoint :=
  match r._center with
  | none => none
  | some .parentPlanet => some parentCenter
  | some (.pt p) => some ⟨(p.x : ℝ), (p.y : ℝ)⟩

/-- index.js lines 638-642: Ring.move. -/
def Ring.move (r : Ring) : Ring :=
  { r with angle := r.angle.addDelta r._delta }

/-- index.js lines 649-662: Ring.draw reads this.center.x first; with a null
center this throws an unguarded TypeError, otherwise it fills the annulus. -/
def Ring.draw (r : Ring) : DrawResult :=
  match r._center with
  | none => ([], some (JsError.typeError "TypeError: Cannot read properties of null"))
  | some _ => ([Ev.ringFill r.id], none)

/-- index.js lines 665-725: Satellite.  Its orbit is null until setOrbit;
when set, the orbit's _center is the parent Planet object (type Unit here:
the parent is supplied at read time). -/
structure Satellite where
  id : ℕ
  src : String
  size : Size
  angle : Angle
  _delta : ℚ
  orbit : Option (Orbit Unit)
  deriving DecidableEq

/-- index.js lines 673-677: the Satellite constructor (orbit defaults to null). -/
def Satellite.create (id : ℕ) (src : String) (size : Size) (fullRotationTime : Time) : Satellite :=
  ⟨id, src, size, ⟨0⟩, Angle.getRotationDelta fullRotationTime, none⟩

/-- index.js lines 684-686: Satellite.setOrbit. -/
def Satellite.setOrbit (s : Satellite) (orbit : Orbit Unit) : Satellite :=
  { s with orbit := some orbit }

/-- index.js lines 702-709: Satellite.move — only moves and rotates when an
orbit is set, otherwise returns the object unchanged. -/
def Satellite.move (s : Satellite) : Satellite :=
  match s.orbit with
  | some o => { s with orbit := some o.move, angle := s.angle.addDelta s._delta }
  | none => s

/-- index.js lines 717-724: Satellite.draw throws the structured invalid-state
Error when no orbit is set, else draws the orbit path and the sprite. -/
def Satellite.draw (s : Satellite) : DrawResult :=
  match s.orbit with
  | none => ([], some (JsError.error "Orbit is not set for the satellite."))
  | some _ => ([Ev.orbitPath s.id, Ev.sprite s.id], none)

/-- index.js lines 457-592: Planet. -/
structure Planet where
  id : ℕ
  src : String
  size : Size
  angle : Angle
  _delta : ℚ
  orbit : Orbit PlanetBary
  satellites : List Satellite
  rings : List Ring
  deriving DecidableEq

/-- index.js lines 465-473: the Planet constructor. -/
def Planet.create (id : ℕ) (src : String) (size : Size) (fullRotationTime : Time)
    (orbit : Orbit PlanetBary) : Planet :=
  ⟨id, src, size, ⟨0⟩, Angle.getRotationDelta fullRotationTime, orbit, [], []⟩

/-- index.js lines 480-482: Planet.get center = this.orbit.orbitalPoint,
recomputed from the orbit every time it is read. -/
noncomputable def Planet.center (p : Planet) : RPoint :=
  p.orbit._getOrbitalPoint

/-- index.js lines 492-497: Planet.addSatellite — gives the satellite an
orbit centered on this planet and appends it to the satellite list. -/
def Planet.addSatellite (p : Planet) (s : Satellite) (distance : ℚ) (fullRotationTime : Time) : Planet :=
  { p with satellites := p.satellites ++ [s.setOrbit (Orbit.create () distance fullRotationTime)] }

/-- index.js lines 505-510: Planet.addRing. -/
def Planet.addRing (p : Planet) (r : Ring) : Planet :=
  { p with rings := p.rings ++ [r.setCenter RingBary.parentPlanet] }

/-- index.js lines 517-524: Planet.move — advances the orbit, the planet's
own rotation, then every ring and satellite.  Children never read the
parent's position during move, so the per-field update is the sequential
source order. -/
def Planet.move (p : Planet) : Planet :=
  { p with
    orbit := p.orbit.move,
    angle := p.angle.addDelta p._delta,
    rings := p.rings.map Ring.move,
    satellites := p.satellites.map Satellite.move }

/-- index.js lines 383-389 applied to a satellite orbit, whose _center field
holds the parent Planet object: reading the orbit's center returns the
parent's current (post-mutation) center, resolved at read time. -/
noncomputable def Orbit.centerS (parent : Planet) (_o : Orbit Unit) : RPoint :=
  parent.center

/-- index.js lines 586-591: Planet.draw — orbit path, own sprite, rings,
satellites, in source order; any throw aborts the rest of this list. -/
def Planet.draw (p : Planet) : DrawResult :=
  dseq ([Ev.orbitPath p.id, Ev.sprite p.id], none)
    (dseq (drawAll Ring.draw p.rings) (drawAll Satellite.draw p.satellites))

/-- Gradient stop color rgba(r, g, b, a) with a ∈ [0,1]. -/
structure RGBA where
  r : ℚ
  g : ℚ
  b : ℚ
  a : ℚ
  deriving DecidableEq

/-- The lighting pass that Planet._getImage performs on its offscreen
canvas: where it puts the recovered sun, the two gradient radii, the
gradient stops, and the composite operation used to apply the shading. -/
structure LightingPass where
  sunCenter : RPoint
  innerRadius : ℚ
  outerRadius : ℚ
  stops : List (ℚ × RGBA)
  compositeOperation : String

/-- index.js lines 534-579: Planet._getImage.  The offscreen pixel work is
abstracted to the geometric/gradient parameters it computes; every value
below mirrors the corresponding source line. -/
noncomputable def Planet._getImage (p : Planet) (image : Size) : LightingPass :=
  let planetCenter : Point := ⟨0, 0⟩
  let distanceFromSunToPlanet : ℚ := p.orbit.radius
  let planetToSunAngle : Angle := ⟨180 + p.orbit.angle.degree - p.angle.degree⟩
  let sunCenter : RPoint :=
    ⟨(planetCenter.x : ℝ) + (distanceFromSunToPlanet : ℝ) * Real.cos planetToSunAngle.toRadians,
     (planetCenter.y : ℝ) + (distanceFromSunToPlanet : ℝ) * Real.sin planetToSunAngle.toRadians⟩
  let planetRadius : ℚ := max image.width image.height / 2
  ⟨sunCenter,
   distanceFromSunToPlanet - planetRadius,
   distanceFromSunToPlanet + planetRadius,
   [(0, ⟨0, 0, 0, 0⟩), (0.3, ⟨0, 0, 0, 0⟩), (0.6, ⟨0, 0, 0, 0.6⟩), (0.9, ⟨0, 0, 0, 0.8⟩)],
   "source-atop"⟩

/-- index.js lines 849-937: the scene singleton's data. -/
structure SolarSystem where
  canvas : Canvas
  center : Point
  stars : List Star
  sun : Sun
  planets : List Planet
  deriving DecidableEq

/-- index.js lines 925-929: SolarSystem.draw — stars, then the sun, then
every planet; a throw anywhere aborts the remainder of the pass. -/
def SolarSystem.draw (w : SolarSystem) : DrawResult :=
  dseq (drawAll Star.draw w.stars) (dseq (Sun.draw w.sun) (drawAll Planet.draw w.planets))

/-- A sun with fixed center at the origin, as in SolarSystem.init. -/
def sun0 : Sun := Sun.create ⟨0, 0⟩ ⟨80, 80⟩ ⟨30⟩

/-- A satellite whose orbit was never set (the constructor default). -/
def satNoOrbit : Satellite := Satellite.create 10 ("images/moon.png") ⟨8, 8⟩ ⟨2⟩

/-- A satellite with an orbit around its parent planet. -/
def satWithOrbit : Satellite :=
  (Satellite.create 11 ("images/moon.png") ⟨8, 8⟩ ⟨2⟩).setOrbit (Orbit.create () 20 ⟨2⟩)

/-- A plain planet with no children. -/
def planet1 : Planet :=
  Planet.create 1 ("images/mercury.png") ⟨10, 10⟩ ⟨6⟩ (Orbit.create (PlanetBary.pt ⟨0, 0⟩) 60 ⟨8⟩)

/-- A planet owning one orbit-less satellite followed by a healthy one. -/
def planetBad : Planet :=
  { Planet.create 2 ("images/earth.png") ⟨30, 30⟩ ⟨6⟩
      (Orbit.create (PlanetBary.pt ⟨0, 0⟩) 120 ⟨36⟩) with
    satellites := [satNoOrbit, satWithOrbit] }

/-- A planet drawn after the failing one. -/
def planet3 : Planet :=
  Planet.create 3 ("images/mars.png") ⟨18, 18⟩ ⟨8⟩ (Orbit.create (PlanetBary.pt ⟨0, 0⟩) 160 ⟨42⟩)

/-- A scene whose second planet owns a satellite with no orbit. -/
def scene0 : SolarSystem :=
  ⟨⟨1000, 800⟩, ⟨500, 400⟩, [], sun0, [planet1, planetBad, planet3]⟩

/-- A planet whose orbital period is 1/15 s, so one tick advances its orbit
angle by exactly 90 degrees. -/
def p90 : Planet :=
  Planet.create 5 ("images/earth.png") ⟨30, 30⟩ ⟨100⟩
    (Orbit.create (PlanetBary.pt ⟨0, 0⟩) 120 ⟨1/15⟩)

/-- A satellite orbit attached to p90 (its _center is the parent planet). -/
def oMoon : Orbit Unit := Orbit.create () 20 ⟨2⟩

/-! Helper lemmas about the JavaScript remainder and the draw monoid. -/

theorem ratTrunc_of_nonneg {q : ℚ} (h : 0 ≤ q) : ratTrunc q = ⌊q⌋ := if_pos h

theorem jsMod_of_nonneg {a : ℚ} (ha : 0 ≤ a) : jsMod a 360 = 360 * Int.fract (a / 360) := by
  have h0 : (0:ℚ) ≤ a / 360 := by positivity
  rw [jsMod, ratTrunc_of_nonneg h0, Int.fract]
  ring

theorem jsMod_nonneg {a : ℚ} (ha : 0 ≤ a) : 0 ≤ jsMod a 360 := by
  rw [jsMod_of_nonneg ha]
  have := Int.fract_nonneg (a / 360)
  positivity

theorem jsMod_lt {a : ℚ} (ha : 0 ≤ a) : jsMod a 360 < 360 := by
  rw [jsMod_of_nonneg ha]
  have h1 : Int.fract (a / 360) < 1 := Int.fract_lt_one _
  nlinarith

theorem jsMod_add_period {a : ℚ} (ha : 0 ≤ a) : jsMod (a + 360) 360 = jsMod a 360 := by
  rw [jsMod_of_nonneg ha, jsMod_of_nonneg (by linarith : (0:ℚ) ≤ a + 360)]
  have h : (a + 360) / 360 = a / 360 + 1 := by ring
  rw [h, Int.fract_add_one]

theorem fract_fract_add (r s : ℚ) : Int.fract (Int.fract r + s) = Int.fract (r + s) := by
  have h : Int.fract r + s = r + s - (⌊r⌋ : ℚ) := by
    rw [Int.fract]
    ring
  rw [h, Int.fract_sub_int]

theorem jsMod_jsMod_add {x d : ℚ} (hx : 0 ≤ x) (hd : 0 ≤ d) :
    jsMod (jsMod x 360 + d) 360 = jsMod (x + d) 360 := by
  have hnn : 0 ≤ jsMod x 360 := jsMod_nonneg hx
  rw [jsMod_of_nonneg (by linarith : (0:ℚ) ≤ jsMod x 360 + d),
      jsMod_of_nonneg (by linarith : (0:ℚ) ≤ x + d), jsMod_of_nonneg hx]
  congr 1
  have h1 : (360 * Int.fract (x / 360) + d) / 360 = Int.fract (x / 360) + d / 360 := by ring
  rw [h1, fract_fract_add]
  congr 1
  ring

theorem iterate_move {C : Type} (b : C) (r d : ℚ) (hd : 0 ≤ d) (n : ℕ) :
    Orbit.move^[n] ⟨b, r, ⟨0⟩, d⟩ = (⟨b, r, ⟨jsMod (n * d) 360⟩, d⟩ : Orbit C) := by
  induction n with
  | zero =>
    simp only [Function.iterate_zero, id_eq, Nat.cast_zero, zero_mul]
    norm_num [jsMod, ratTrunc]
  | succ k ih =>
    rw [Function.iterate_succ_apply', ih]
    simp only [Orbit.move, Angle.addDelta]
    have hkd : (0:ℚ) ≤ (k : ℚ) * d := by positivity
    have h1 : jsMod (jsMod ((k:ℚ) * d) 360 + d) 360 = jsMod ((k:ℚ) * d + d) 360 :=
      jsMod_jsMod_add hkd hd
    have h2 : ((k:ℚ) * d + d) = (((k + 1 : ℕ)) : ℚ) * d := by push_cast; ring
    rw [h1, h2]

theorem dseq_snd_none {a b : DrawResult} (h : (dseq a b).2 = none) :
    a.2 = none ∧ b.2 = none := by
  rcases ha : a.2 with _ | e
  · refine ⟨rfl, ?_⟩
    simp only [dseq, ha] at h
    exact h
  · simp only [dseq, ha] at h
    exact absurd h (by simp)

theorem foldl_dseq_none {α : Type} (f : α → DrawResult) :
    ∀ (xs : List α) (acc : DrawResult),
      (xs.foldl (fun a x => dseq a (f x)) acc).2 = none →
      acc.2 = none ∧ ∀ x ∈ xs, (f x).2 = none := by
  intro xs
  induction xs with
  | nil =>
    intro acc h
    exact ⟨h, by simp⟩
  | cons y ys ih =>
    intro acc h
    rw [List.foldl_cons] at h
    obtain ⟨hacc, hys⟩ := ih (dseq acc (f y)) h
    obtain ⟨h1, h2⟩ := dseq_snd_none hacc
    refine ⟨h1, ?_⟩
    intro x hx
    rcases List.mem_cons.mp hx with rfl | hmem
    · exact h2
    · exact hys x hmem

theorem drawAll_none {α : Type} {f : α → DrawResult} {xs : List α}
    (h : (drawAll f xs).2 = none) : ∀ x ∈ xs, (f x).2 = none :=
  (foldl_dseq_none f xs ([], none) h).2

/-- Claim C1, counterexample: a star exactly on the canvas boundary
(x = width) is NOT respawned by Star.move — the out-of-bounds test uses
strict inequalities — and the drift step then leaves it strictly outside
the canvas, so a star can be left out of bounds after one advance. -/
theorem star_boundary_counterexample :
    (Star.move ⟨100, 100⟩ ⟨50, 50⟩ (1/2) (1/2) ⟨⟨100, 50⟩, 1, "#ffffff"⟩).center =
      ⟨5001/50, 50⟩ ∧
    (Star.move ⟨100, 100⟩ ⟨50, 50⟩ (1/2) (1/2) ⟨⟨100, 50⟩, 1, "#ffffff"⟩).center.x > 100 := by
  have h : Star.move ⟨100, 100⟩ ⟨50, 50⟩ (1/2) (1/2) ⟨⟨100, 50⟩, 1, "#ffffff"⟩ =
      ⟨⟨100 + (100 - 50) / 2500, 50 + (50 - 50) / 2500⟩, 1, "#ffffff"⟩ := by
    rw [Star.move, if_neg]
    norm_num
  rw [h]
  norm_num

/-- Claim C1, amended: Star.move respawns a star that is strictly outside
the canvas (x < 0, x > width, y < 0 or y > height) to a uniformly random
position in [0, width) x [0, height); the boundary check runs before the
drift, so such a star is respawned rather than drifted further.  A star
exactly on the boundary, however, is treated as in-bounds and drifts, which
can leave it out of bounds until the next advance. -/
theorem star_respawn_in_bounds (W H rx ry : ℚ) (c : Point) (s : Star)
    (hW : 0 < W) (hH : 0 < H)
    (hrx0 : 0 ≤ rx) (hrx1 : rx < 1) (hry0 : 0 ≤ ry) (hry1 : ry < 1)
    (hout : s.center.x < 0 ∨ s.center.x > W ∨ s.center.y < 0 ∨ s.center.y > H) :
    0 ≤ (Star.move ⟨W, H⟩ c rx ry s).center.x ∧ (Star.move ⟨W, H⟩ c rx ry s).center.x < W ∧
    0 ≤ (Star.move ⟨W, H⟩ c rx ry s).center.y ∧ (Star.move ⟨W, H⟩ c rx ry s).center.y < H := by
  have h : Star.move ⟨W, H⟩ c rx ry s = Star.reset ⟨W, H⟩ rx ry s := by
    rw [Star.move, if_pos hout]
  rw [h, Star.reset]
  refine ⟨mul_nonneg hrx0 hW.le, ?_, mul_nonneg hry0 hH.le, ?_⟩
  · calc rx * W < 1 * W := by exact mul_lt_mul_of_pos_right hrx1 hW
    _ = W := one_mul W
  · calc ry * H < 1 * H := by exact mul_lt_mul_of_pos_right hry1 hH
    _ = H := one_mul H

/-- Claim C1, witness: a star at x = -5 on a 100 x 100 canvas is respawned
into bounds by one advance. -/
theorem star_respawn_in_bounds_witness :
    0 ≤ (Star.move ⟨100, 100⟩ ⟨50, 50⟩ (1/2) (1/2) ⟨⟨-5, 50⟩, 1, "#ffffff"⟩).center.x ∧
    (Star.move ⟨100, 100⟩ ⟨50, 50⟩ (1/2) (1/2) ⟨⟨-5, 50⟩, 1, "#ffffff"⟩).center.x < 100 ∧
    0 ≤ (Star.move ⟨100, 100⟩ ⟨50, 50⟩ (1/2) (1/2) ⟨⟨-5, 50⟩, 1, "#ffffff"⟩).center.y ∧
    (Star.move ⟨100, 100⟩ ⟨50, 50⟩ (1/2) (1/2) ⟨⟨-5, 50⟩, 1, "#ffffff"⟩).center.y < 100 :=
  star_respawn_in_bounds 100 100 (1/2) (1/2) ⟨50, 50⟩ ⟨⟨-5, 50⟩, 1, "#ffffff"⟩
    (by norm_num) (by norm_num) (by norm_num) (by norm_num) (by norm_num) (by norm_num)
    (Or.inl (by norm_num))

/-- Claim C2, counterexample: JavaScript % truncates toward zero, so for a
negative sum Angle.addDelta returns a negative degree, outside [0, 360);
likewise normalize(a + 360) differs from normalize(a) at a = -10. -/
theorem angle_mod_counterexample :
    (Angle.addDelta ⟨0⟩ (-10)).degree = -10 ∧
    ¬ (0 ≤ (Angle.addDelta ⟨0⟩ (-10)).degree) ∧
    jsMod (-10 + 360) 360 ≠ jsMod (-10) 360 := by
  refine ⟨?_, ?_, ?_⟩ <;>
    norm_num [Angle.addDelta, jsMod, ratTrunc, Int.ceil_neg]

/-- Claim C2, amended: for every nonnegative angle a,
normalize(a + 360) = normalize(a); and whenever degree + delta is
nonnegative — which holds for every reachable state of the program, where
angles start at 0 and all deltas are positive — Angle.addDelta lands in
[0, 360).  For a negative sum the result of the JavaScript % is negative. -/
theorem angle_normalized (a d : ℚ) (ha : 0 ≤ a) (had : 0 ≤ a + d) :
    jsMod (a + 360) 360 = jsMod a 360 ∧
    0 ≤ (Angle.addDelta ⟨a⟩ d).degree ∧ (Angle.addDelta ⟨a⟩ d).degree < 360 := by
  refine ⟨jsMod_add_period ha, ?_, ?_⟩
  · exact jsMod_nonneg had
  · exact jsMod_lt had

/-- Claim C2, witness: at a = 10, d = 5 the amended properties hold. -/
theorem angle_normalized_witness :
    jsMod (10 + 360) 360 = jsMod 10 360 ∧
    0 ≤ (Angle.addDelta ⟨10⟩ 5).degree ∧ (Angle.addDelta ⟨10⟩ 5).degree < 360 :=
  angle_normalized 10 5 (by norm_num) (by norm_num)

/-- Claim C3, counterexample: in scene0 the second planet's first satellite
has no orbit.  Its draw throws the invalid-state Error, and because no
render method catches exceptions, the pass aborts: the planet's remaining
satellite (id 11) and the third planet (id 3) contribute nothing to the
frame, contradicting the claim that the enclosing render pass still
completes. -/
theorem render_pass_abort_counterexample :
    SolarSystem.draw scene0 =
      ([Ev.sunSprite, Ev.orbitPath 1, Ev.sprite 1, Ev.orbitPath 2, Ev.sprite 2],
       some (JsError.error "Orbit is not set for the satellite.")) ∧
    Ev.sprite 11 ∉ (SolarSystem.draw scene0).1 ∧
    Ev.sprite 3 ∉ (SolarSystem.draw scene0).1 := by
  have h : SolarSystem.draw scene0 =
      ([Ev.sunSprite, Ev.orbitPath 1, Ev.sprite 1, Ev.orbitPath 2, Ev.sprite 2],
       some (JsError.error "Orbit is not set for the satellite.")) := rfl
  refine ⟨h, ?_, ?_⟩ <;>
    · rw [h]
      simp

/-- Claim C3, amended: rendering a Satellite whose orbit is unset raises the
invalid-state error, but nothing catches it, so the failure aborts the whole
render pass for that frame: SolarSystem.draw finishes with that uncaught
exception instead of completing the remaining bodies. -/
theorem satellite_error_propagates (w : SolarSystem) (p : Planet) (s : Satellite)
    (hp : p ∈ w.planets) (hs : s ∈ p.satellites) (ho : s.orbit = none) :
    Satellite.draw s = ([], some (JsError.error "Orbit is not set for the satellite.")) ∧
    (SolarSystem.draw w).2 ≠ none := by
  have hdraw : Satellite.draw s =
      ([], some (JsError.error "Orbit is not set for the satellite.")) := by
    rw [Satellite.draw, ho]
  refine ⟨hdraw, ?_⟩
  intro hnone
  rw [SolarSystem.draw] at hnone
  obtain ⟨-, h2⟩ := dseq_snd_none hnone
  obtain ⟨-, h3⟩ := dseq_snd_none h2
  have h4 : (Planet.draw p).2 = none := drawAll_none h3 p hp
  rw [Planet.draw] at h4
  obtain ⟨-, h5⟩ := dseq_snd_none h4
  obtain ⟨-, h6⟩ := dseq_snd_none h5
  have h7 : (Satellite.draw s).2 = none := drawAll_none h6 s hs
  rw [hdraw] at h7
  exact absurd h7 (by simp)

/-- Claim C3, witness: in scene0 the orbit-less satellite raises the
invalid-state error and the scene's render pass does not complete. -/
theorem satellite_error_propagates_witness :
    Satellite.draw satNoOrbit =
      ([], some (JsError.error "Orbit is not set for the satellite.")) ∧
    (SolarSystem.draw scene0).2 ≠ none :=
  satellite_error_propagates scene0 planetBad satNoOrbit
    (List.mem_cons_of_mem planet1 (List.mem_cons_self planetBad [planet3]))
    (List.mem_cons_self satNoOrbit [satWithOrbit]) rfl

/-- Claim C4: a satellite's orbit stores the parent Planet object, and the
center getter resolves the parent's current position at read time, so after
Planet.move the satellite's orbit center is the planet's post-advance
center; at the concrete planet p90 (orbit radius 120, 90 degrees per tick)
the post-advance reading differs from the pre-advance center. -/
theorem satellite_tracks_center :
    (∀ (p : Planet) (o : Orbit Unit), Orbit.centerS (Planet.move p) o = (Planet.move p).center) ∧
    (Orbit.centerS (Planet.move p90) oMoon).x ≠ (Planet.center p90).x := by
  refine ⟨fun p o => rfl, ?_⟩
  have hdelta : Angle.getRotationDelta ⟨1/15⟩ = 90 := by
    rw [Angle.getRotationDelta, FPS]
    norm_num
  have horb : (Planet.move p90).orbit = (⟨PlanetBary.pt ⟨0, 0⟩, 120, ⟨90⟩, 90⟩ : Orbit PlanetBary) := by
    show (Orbit.create (PlanetBary.pt ⟨0, 0⟩) 120 ⟨1/15⟩).move = _
    rw [Orbit.create, hdelta, Orbit.move]
    simp only [Angle.addDelta]
    norm_num [jsMod, ratTrunc]
  have hx1 : (Orbit.centerS (Planet.move p90) oMoon).x = 0 := by
    show ((Planet.move p90).orbit)._getOrbitalPoint.x = 0
    rw [horb]
    simp only [Orbit._getOrbitalPoint, Orbit.center, PlanetBary.centerOf, Angle.toRadians]
    have h : ((90 : ℚ) : ℝ) * Real.pi / 180 = Real.pi / 2 := by push_cast; ring
    rw [h, Real.cos_pi_div_two]
    push_cast
    ring
  have hx0 : (Planet.center p90).x = 120 := by
    show (Orbit.create (PlanetBary.pt ⟨0, 0⟩) 120 ⟨1/15⟩)._getOrbitalPoint.x = 120
    rw [Orbit.create]
    simp only [Orbit._getOrbitalPoint, Orbit.center, PlanetBary.centerOf, Angle.toRadians]
    have h : ((0 : ℚ) : ℝ) * Real.pi / 180 = 0 := by push_cast; ring
    rw [h, Real.cos_zero]
    push_cast
    ring
  rw [hx1, hx0]
  norm_num

/-- Claim C5: the lighting compositor puts the sun at distance orbit.radius
along the direction 180 + orbit.angle - self_rotation.angle in planet-local
image space, uses gradient radii orbit.radius minus resp. plus max(width, height)/2,
black stops of alpha 0 at 0 and 0.3, alpha 0.6 at 0.6 and alpha 0.8 at 0.9,
and composites with source-atop. -/
theorem planet_lighting_compositor (p : Planet) (image : Size) :
    (Planet._getImage p image).sunCenter.x =
      (p.orbit.radius : ℝ) * Real.cos (Angle.toRadians ⟨180 + p.orbit.angle.degree - p.angle.degree⟩) ∧
    (Planet._getImage p image).sunCenter.y =
      (p.orbit.radius : ℝ) * Real.sin (Angle.toRadians ⟨180 + p.orbit.angle.degree - p.angle.degree⟩) ∧
    (Planet._getImage p image).innerRadius = p.orbit.radius - max image.width image.height / 2 ∧
    (Planet._getImage p image).outerRadius = p.orbit.radius + max image.width image.height / 2 ∧
    (Planet._getImage p image).stops =
      [(0, ⟨0, 0, 0, 0⟩), (0.3, ⟨0, 0, 0, 0⟩), (0.6, ⟨0, 0, 0, 0.6⟩), (0.9, ⟨0, 0, 0, 0.8⟩)] ∧
    (Planet._getImage p image).compositeOperation = "source-atop" := by
  refine ⟨?_, ?_, rfl, rfl, rfl, rfl⟩ <;>
    · simp only [Planet._getImage]
      push_cast
      ring

/-- Claim C6: an Orbit constructed with period s seconds, advanced exactly
n = s * 60 times (60 being the target frame rate), returns its angle to the
starting value 0 — exactly, in the rational model, hence within the 1e-6
degree tolerance. -/
theorem orbit_full_revolution {C : Type} (b : C) (r s : ℚ) (hs : 0 < s)
    (n : ℕ) (hn : (n : ℚ) = s * 60) :
    (Orbit.move^[n] (Orbit.create b r ⟨s⟩)).angle.degree = 0 ∧
    |(Orbit.move^[n] (Orbit.create b r ⟨s⟩)).angle.degree -
      (Orbit.create b r ⟨s⟩).angle.degree| ≤ 1 / 1000000 := by
  have hd : (0:ℚ) ≤ Angle.getRotationDelta ⟨s⟩ := by
    rw [Angle.getRotationDelta, FPS]
    positivity
  have hiter : Orbit.move^[n] (Orbit.create b r ⟨s⟩) =
      (⟨b, r, ⟨jsMod ((n : ℚ) * Angle.getRotationDelta ⟨s⟩) 360⟩,
        Angle.getRotationDelta ⟨s⟩⟩ : Orbit C) :=
    iterate_move b r (Angle.getRotationDelta ⟨s⟩) hd n
  have hval : (n : ℚ) * Angle.getRotationDelta ⟨s⟩ = 360 := by
    rw [Angle.getRotationDelta, FPS, hn]
    have hs60 : s * 60 ≠ 0 := by positivity
    field_simp
  have h0 : (Orbit.move^[n] (Orbit.create b r ⟨s⟩)).angle.degree = 0 := by
    rw [hiter]
    show jsMod ((n : ℚ) * Angle.getRotationDelta ⟨s⟩) 360 = 0
    rw [hval]
    norm_num [jsMod, ratTrunc]
  refine ⟨h0, ?_⟩
  rw [h0]
  show |(0 : ℚ) - 0| ≤ 1 / 1000000
  norm_num

/-- Claim C6, witness: a planet orbit with period 36.5 s at 60 fps returns
to its initial 0-degree angle after exactly 2190 advances. -/
theorem orbit_full_revolution_witness :
    (Orbit.move^[2190] (Orbit.create () (120 : ℚ) ⟨73/2⟩)).angle.degree = 0 ∧
    |(Orbit.move^[2190] (Orbit.create () (120 : ℚ) ⟨73/2⟩)).angle.degree -
      (Orbit.create () (120 : ℚ) ⟨73/2⟩).angle.degree| ≤ 1 / 1000000 :=
  orbit_full_revolution () 120 (73/2) (by norm_num) 2190 (by norm_num)

/-- Claim C7: Orbit position is the pure function
center + radius * (cos angle, sin angle) with the center reference resolved
at call time; at angle 0 it yields (cx + r, cy) and at angle 90 degrees it
yields (cx, cy + r), exactly. -/
theorem orbit_position_pure (cx cy r d : ℚ) :
    (∀ (o : Orbit PlanetBary),
        o._getOrbitalPoint.x = o.center.x + (o.radius : ℝ) * Real.cos o.angle.toRadians ∧
        o._getOrbitalPoint.y = o.center.y + (o.radius : ℝ) * Real.sin o.angle.toRadians) ∧
    (Orbit._getOrbitalPoint ⟨PlanetBary.pt ⟨cx, cy⟩, r, ⟨0⟩, d⟩).x = (cx : ℝ) + (r : ℝ) ∧
    (Orbit._getOrbitalPoint ⟨PlanetBary.pt ⟨cx, cy⟩, r, ⟨0⟩, d⟩).y = (cy : ℝ) ∧
    (Orbit._getOrbitalPoint ⟨PlanetBary.pt ⟨cx, cy⟩, r, ⟨90⟩, d⟩).x = (cx : ℝ) ∧
    (Orbit._getOrbitalPoint ⟨PlanetBary.pt ⟨cx, cy⟩, r, ⟨90⟩, d⟩).y = (cy : ℝ) + (r : ℝ) := by
  have h0 : ((0 : ℚ) : ℝ) * Real.pi / 180 = 0 := by push_cast; ring
  have h90 : ((90 : ℚ) : ℝ) * Real.pi / 180 = Real.pi / 2 := by push_cast; ring
  refine ⟨fun o => ⟨rfl, rfl⟩, ?_, ?_, ?_, ?_⟩
  · simp only [Orbit._getOrbitalPoint, Orbit.center, PlanetBary.centerOf, Angle.toRadians]
    rw [h0, Real.cos_zero]
    ring
  · simp only [Orbit._getOrbitalPoint, Orbit.center, PlanetBary.centerOf, Angle.toRadians]
    rw [h0, Real.sin_zero]
    ring
  · simp only [Orbit._getOrbitalPoint, Orbit.center, PlanetBary.centerOf, Angle.toRadians]
    rw [h90, Real.cos_pi_div_two]
    ring
  · simp only [Orbit._getOrbitalPoint, Orbit.center, PlanetBary.centerOf, Angle.toRadians]
    rw [h90, Real.sin_pi_div_two]
    ring

/-- Claim C8: every per-frame angular delta in the system — the orbital
deltas of Orbit, and the self-rotation deltas of Ring, Planet, Satellite
and Sun — is derived by the single formula 360 / (period_seconds * 60),
with 60 the fixed FPS constant. -/
theorem rotation_delta_single_formula :
    FPS = 60 ∧
    (∀ (C : Type) (b : C) (r : ℚ) (t : Time),
        (Orbit.create b r t)._delta = 360 / (t.seconds * 60)) ∧
    (∀ (rid : ℕ) (ri ro : ℚ) (c : String) (t : Time),
        (Ring.create rid ri ro c t)._delta = 360 / (t.seconds * 60)) ∧
    (∀ (pid : ℕ) (src : String) (sz : Size) (t : Time) (ob : Orbit PlanetBary),
        (Planet.create pid src sz t ob)._delta = 360 / (t.seconds * 60)) ∧
    (∀ (sid : ℕ) (src : String) (sz : Size) (t : Time),
        (Satellite.create sid src sz t)._delta = 360 / (t.seconds * 60)) ∧
    (∀ (c : Point) (sz : Size) (t : Time), (Sun.create c sz t)._delta = 360 / (t.seconds * 60)) :=
  ⟨rfl, fun _ _ _ _ => rfl, fun _ _ _ _ _ => rfl, fun _ _ _ _ _ => rfl,
   fun _ _ _ _ => rfl, fun _ _ _ => rfl⟩

/-- Claim C9: Satellite.move with an unset orbit is a no-op that raises no
error — it returns the satellite entirely unchanged, self-rotation angle
included — while Satellite.draw on the same satellite throws. -/
theorem satellite_move_noop (s : Satellite) (h : s.orbit = none) :
    Satellite.move s = s ∧
    Satellite.draw s = ([], some (JsError.error "Orbit is not set for the satellite.")) := by
  obtain ⟨sid, src, sz, a, d, ob⟩ := s
  cases ob with
  | none => exact ⟨rfl, rfl⟩
  | some o => exact absurd h (by simp)

/-- Claim C9, witness: the concrete orbit-less satellite is unchanged by
move and throws on draw. -/
theorem satellite_move_noop_witness :
    Satellite.move satNoOrbit = satNoOrbit ∧
    Satellite.draw satNoOrbit = ([], some (JsError.error "Orbit is not set for the satellite.")) :=
  satellite_move_noop satNoOrbit rfl

/-- Claim C10: a freshly constructed Ring has a null center reference, its
center accessor returns null, and drawing it fails with an unguarded
TypeError (null dereference of this.center.x) rather than the structured
invalid-state Error that a Satellite raises. -/
theorem ring_null_center (rid : ℕ) (ri ro : ℚ) (c : String) (t : Time) (pc : RPoint) :
    (Ring.create rid ri ro c t)._center = none ∧
    Ring.center pc (Ring.create rid ri ro c t) = none ∧
    Ring.draw (Ring.create rid ri ro c t) =
      ([], some (JsError.typeError "TypeError: Cannot read properties of null")) ∧
    ∀ msg, Ring.draw (Ring.create rid ri ro c t) ≠ ([], some (JsError.error msg)) := by
  refine ⟨rfl, rfl, rfl, fun msg hmsg => ?_⟩
  simp only [Ring.draw, Ring.create] at hmsg
  exact absurd hmsg (by simp)

end Solar
